import Mathlib

/-!
# Verification of the OpenShiftControlPlane API types

A shallow embedding of `api/cluster/v1alpha1/types_openshiftcontrolplane.go`
from `openshift-cloud-team/cluster-api-provider-openshift`, together with the
validation behaviour its kubebuilder/CEL markers induce, and a model (built
from the accompanying design document) of the controller-side lifecycle state
machine and condition reporter that the schema exists to support.

Conventions:
* `metav1.Duration` is embedded as an integer number of nanoseconds.
* Go maps (`map[string]string`) are embedded as association lists.
* Optional (`*T` / `omitempty`) fields are embedded as `Option`.
* A "wire" variant of each structure, with every field optional, models the
  incoming object before schema validation; `validate…` functions embed the
  validation that the recognized kubebuilder markers generate.
-/

namespace OCP

/-- Embedding of `metav1.Duration` as a number of nanoseconds. -/
structure Duration where
  nanos : Int
  deriving DecidableEq, Repr

/-- Embedding of `ObjectMeta` (lines 107–122): the subset of `metav1.ObjectMeta` carrying
labels and annotations for control plane machines. -/
structure ObjectMeta where
  labels : List (String × String) := []
  annotations : List (String × String) := []
  deriving DecidableEq, Repr

/-- Embedding of `InfrastructureReference` (lines 124–147): a reference to a custom
resource offered by an infrastructure provider. -/
structure InfrastructureReference where
  kind : String
  «namespace» : String
  name : String
  apiVersion : String
  deriving DecidableEq, Repr

/-- Embedding of `OpenShiftControlPlaneMachineTemplate` (lines 76–105). -/
structure OpenShiftControlPlaneMachineTemplate where
  objectMeta : ObjectMeta := {}
  infrastructureRef : InfrastructureReference
  nodeDrainTimeout : Option Duration := none
  nodeVolumeDetachTimeout : Option Duration := none
  nodeDeletionTimeout : Option Duration := none
  deriving DecidableEq, Repr

/-- Embedding of `OpenShiftControlPlaneSecretRef` (lines 149–158). -/
structure OpenShiftControlPlaneSecretRef where
  name : String
  deriving DecidableEq, Repr

/-- Embedding of `metav1.LabelSelectorRequirement` (external, used by `LabelSelector`). -/
structure LabelSelectorRequirement where
  key : String
  operator : String
  values : List String
  deriving DecidableEq, Repr

/-- Embedding of `metav1.LabelSelector` (external): the type of
`OpenShiftControlPlaneSpec.ManifestsSelector`. -/
structure LabelSelector where
  matchLabels : List (String × String) := []
  matchExpressions : List LabelSelectorRequirement := []
  deriving DecidableEq, Repr

/-- Embedding of `OpenShiftControlPlaneSpec` (lines 48–74). `manifestsSelector` is a
non-pointer struct in Go, so the typed representation always carries a value
(the zero value when the field was omitted). -/
structure OpenShiftControlPlaneSpec where
  machineTemplate : OpenShiftControlPlaneMachineTemplate
  installStateSecretRef : OpenShiftControlPlaneSecretRef
  manifestsSelector : LabelSelector := {}
  deriving DecidableEq, Repr

/-- The CEL transition rule generated by the marker on `machineTemplate`
(line 53): `+kubebuilder:validation:XValidation:rule="self == oldSelf"`.
A transition rule is evaluated only on updates, i.e. when an old (last
accepted) object exists; `self == oldSelf` is CEL deep structural equality
of the machine templates. The update is admitted iff this returns `true`. -/
def validateUpdate (oldSpec : Option OpenShiftControlPlaneSpec)
    (newSpec : OpenShiftControlPlaneSpec) : Bool :=
  match oldSpec with
  | none => true
  | some o => decide (newSpec.machineTemplate = o.machineTemplate)

/-!
## Secret name validation (lines 149–158)

The marker `+kubebuilder:validation:Pattern="[a-z0-9]([-.a-z0-9]{,251}[a-z0-9])?"`
produces a JSON-schema `pattern` constraint.  Two facts about how Kubernetes
evaluates such a constraint matter here:
* the pattern is **not anchored**: a string is accepted when the regular
  expression matches **some substring** of it;
* Go's RE2 syntax has no `{,n}` repetition form (the braces are read as
  literal characters).  We embed the charitable `{0,251}` reading; for the
  unanchored does-a-match-exist question the two readings coincide, because
  the whole parenthesised group is optional.
`MaxLength=253` is a separate constraint on the string length.

The matcher below computes, for each construct of the pattern, the list of
possible remainders of the input after a match of that construct.
-/

/-- The character class `[a-z0-9]`. -/
def isLowerAlnum (c : Char) : Bool :=
  ('a' ≤ c && c ≤ 'z') || ('0' ≤ c && c ≤ '9')

/-- The character class `[-.a-z0-9]`. -/
def isNameChar (c : Char) : Bool :=
  c = '-' || c = '.' || isLowerAlnum c

/-- Remainders after matching a single character of class `p` at the head. -/
def classRem (p : Char → Bool) : List Char → List (List Char)
  | [] => []
  | c :: rest => if p c then [rest] else []

/-- Remainders after matching `p{0,k}` at the head (one per match length). -/
def repRem (p : Char → Bool) : Nat → List Char → List (List Char)
  | 0, s => [s]
  | k + 1, s =>
    s :: (match s with
          | [] => []
          | c :: rest => if p c then repRem p k rest else [])

/-- Sequencing: every remainder of the first matcher is fed to the second. -/
def seqRem (f g : List Char → List (List Char)) (s : List Char) :
    List (List Char) :=
  (f s).flatMap g

/-- An optional group: it may also match the empty string. -/
def optRem (f : List Char → List (List Char)) (s : List Char) :
    List (List Char) :=
  s :: f s

/-- Remainders of a match of the whole pattern
`[a-z0-9]([-.a-z0-9]{0,251}[a-z0-9])?` starting at the head of `s`. -/
def patternRem (s : List Char) : List (List Char) :=
  seqRem (classRem isLowerAlnum)
    (optRem (seqRem (repRem isNameChar 251) (classRem isLowerAlnum))) s

/-- Unanchored search, as Kubernetes performs it: the pattern constraint is
satisfied iff a match starts at some position of the string. -/
def patternFound (s : String) : Bool :=
  s.data.tails.any (fun t => !(patternRem t).isEmpty)

/-- The complete generated validation for
`OpenShiftControlPlaneSecretRef.name`: the (unanchored) `Pattern` marker
together with `MaxLength=253`. -/
def validateSecretName (s : String) : Bool :=
  patternFound s && decide (s.length ≤ 253)

/-- Follows the spec's words (§4.1, and claim C5): length at most 253, only
lowercase alphanumeric characters, `-` or `.`, and the first and last
characters alphanumeric.  Stated for comparison with `validateSecretName`,
the validation the code actually generates. -/
def specDnsSubdomainName (s : String) : Bool :=
  decide (s.length ≤ 253) && !s.isEmpty && s.data.all isNameChar &&
  (match s.data.head? with | none => false | some c => isLowerAlnum c) &&
  (match s.data.getLast? with | none => false | some c => isLowerAlnum c)

/-!
## Wire representation and structural (create-time) validation

The wire structures model the incoming object before schema validation:
every field can be absent.  The `validate…` functions embed exactly the
constraints the generated schema enforces: the kubebuilder markers, plus
controller-gen's required-by-default rule — a field is required whenever it
is not inline, its json tag lacks `omitempty`, and it carries no optional
marker.
-/

/-- Wire form of `InfrastructureReference`: every field may be absent. -/
structure WireInfrastructureReference where
  kind : Option String := none
  «namespace» : Option String := none
  name : Option String := none
  apiVersion : Option String := none
  deriving DecidableEq, Repr

/-- Wire form of `OpenShiftControlPlaneMachineTemplate`. -/
structure WireMachineTemplate where
  metadata : Option ObjectMeta := none
  infrastructureRef : Option WireInfrastructureReference := none
  nodeDrainTimeout : Option Duration := none
  nodeVolumeDetachTimeout : Option Duration := none
  nodeDeletionTimeout : Option Duration := none
  deriving DecidableEq, Repr

/-- Wire form of `OpenShiftControlPlaneSecretRef`. -/
structure WireSecretRef where
  name : Option String := none
  deriving DecidableEq, Repr

/-- Wire form of `OpenShiftControlPlaneSpec`. -/
structure WireSpec where
  machineTemplate : Option WireMachineTemplate := none
  installStateSecretRef : Option WireSecretRef := none
  manifestsSelector : Option LabelSelector := none
  deriving DecidableEq, Repr

/-- Wire form of a whole resource: its own namespace and name (from
`metav1.ObjectMeta`) plus the spec. -/
structure WireResource where
  «namespace» : String
  name : String
  spec : WireSpec
  deriving DecidableEq, Repr

/-- Validation generated by the `Required` markers on the fields of
`InfrastructureReference` (lines 128–147): all four must be present. -/
def validateInfrastructureReference (r : WireInfrastructureReference) : Bool :=
  r.kind.isSome && r.«namespace».isSome && r.name.isSome && r.apiVersion.isSome

/-- Validation generated inside `OpenShiftControlPlaneMachineTemplate`
(lines 76–105): `infrastructureRef` is required; the metadata and the three
timeout fields are `+optional`. -/
def validateMachineTemplate (m : WireMachineTemplate) : Bool :=
  match m.infrastructureRef with
  | none => false
  | some r => validateInfrastructureReference r

/-- Validation generated for `OpenShiftControlPlaneSecretRef` (lines
149–158): `name` is required and must satisfy the `Pattern` and `MaxLength`
markers. -/
def validateSecretRef (s : WireSecretRef) : Bool :=
  match s.name with
  | none => false
  | some n => validateSecretName n

/-- Structural validation of `OpenShiftControlPlaneSpec` as generated from
the markers and field declarations (lines 48–74).  `machineTemplate` is
required by controller-gen's required-by-default rule: its json tag
(`json:"machineTemplate"`, line 57) has no `omitempty` and the field carries
no optional marker, so it lands in the schema's `required` list even though
the explicit marker on line 54 is misspelled (`+kubeubilder:validation:Required`)
and therefore inert.  `installStateSecretRef` carries a well-formed
`Required` marker; `manifestsSelector` is `+optional` with `omitempty`. -/
def validateSpecCreate (s : WireSpec) : Bool :=
  (match s.machineTemplate with
   | none => false
   | some m => validateMachineTemplate m) &&
  (match s.installStateSecretRef with
   | none => false
   | some r => validateSecretRef r)

/-- Schema validation of a whole resource on create.  The generated schema
validates `spec` in isolation: no marker relates (or could relate)
`spec.machineTemplate.infrastructureRef.namespace` to the resource's own
`metadata.namespace`. -/
def validateResourceCreate (r : WireResource) : Bool :=
  validateSpecCreate r.spec

/-- The namespace named by the infrastructure reference, when present. -/
def refNamespace? (r : WireResource) : Option String :=
  match r.spec.machineTemplate with
  | none => none
  | some m =>
    match m.infrastructureRef with
    | none => none
    | some ir => ir.«namespace»

/-- Set the namespace field of a wire infrastructure reference. -/
def setIRNamespace (ir : WireInfrastructureReference) (ns : String) :
    WireInfrastructureReference :=
  { ir with «namespace» := some ns }

/-- Set the namespace of the infrastructure reference inside a wire machine
template, when the reference is present. -/
def setMTRefNamespace (m : WireMachineTemplate) (ns : String) :
    WireMachineTemplate :=
  { m with infrastructureRef := m.infrastructureRef.map (setIRNamespace · ns) }

/-- Replace the namespace of the infrastructure reference (leaving the field
present).  Used to state that schema validation is insensitive to its value. -/
def withRefNamespace (r : WireResource) (ns : String) : WireResource :=
  { r with spec :=
    { r.spec with
        machineTemplate := r.spec.machineTemplate.map (setMTRefNamespace · ns) } }

/-- Go decoding of the optional non-pointer `manifestsSelector` field (line
73): an absent field leaves the zero value, i.e. the empty label selector. -/
def decodeManifestsSelector : Option LabelSelector → LabelSelector
  | none => {}
  | some sel => sel

/-!
## Concrete sample values used by counterexamples and failing inputs
-/

/-- A fully populated, well-formed infrastructure reference. -/
def sampleInfraRef : InfrastructureReference :=
  { kind := ("AWSMachineTemplate"), «namespace» := ("test-ns"),
    name := ("cp-template"),
    apiVersion := ("infrastructure.cluster.x-k8s.io/v1beta1") }

/-- A machine template whose `nodeDrainTimeout` is unset. -/
def mtDrainUnset : OpenShiftControlPlaneMachineTemplate :=
  { infrastructureRef := sampleInfraRef }

/-- The same machine template with `nodeDrainTimeout` explicitly zero. -/
def mtDrainZero : OpenShiftControlPlaneMachineTemplate :=
  { infrastructureRef := sampleInfraRef,
    nodeDrainTimeout := some { nanos := 0 } }

/-- A spec built around a given machine template. -/
def specOf (mt : OpenShiftControlPlaneMachineTemplate) :
    OpenShiftControlPlaneSpec :=
  { machineTemplate := mt,
    installStateSecretRef := { name := ("cluster-install-state") } }

/-- Override the three timeout fields of a spec's machine template. -/
def withTimeouts (s : OpenShiftControlPlaneSpec)
    (dr dv dd : Option Duration) : OpenShiftControlPlaneSpec :=
  { s with machineTemplate :=
    { s.machineTemplate with nodeDrainTimeout := dr,
                             nodeVolumeDetachTimeout := dv,
                             nodeDeletionTimeout := dd } }

/-- The effective drain/detach limit: unset and zero both mean "no limit". -/
def effTimeout (d : Option Duration) : Duration :=
  d.getD { nanos := 0 }

/-- Follows the spec's words (§4.3, and claim C4): deep structural equality
over all MachineTemplate fields, except that for `nodeDrainTimeout` and
`nodeVolumeDetachTimeout` an unset value and an explicit zero are identified,
while `nodeDeletionTimeout` is compared exactly.  Stated for comparison with
the comparison the CEL rule actually performs. -/
def machineTemplateEqClaim
    (a b : OpenShiftControlPlaneMachineTemplate) : Bool :=
  decide (a.objectMeta = b.objectMeta) &&
  decide (a.infrastructureRef = b.infrastructureRef) &&
  decide (effTimeout a.nodeDrainTimeout = effTimeout b.nodeDrainTimeout) &&
  decide (effTimeout a.nodeVolumeDetachTimeout
            = effTimeout b.nodeVolumeDetachTimeout) &&
  decide (a.nodeDeletionTimeout = b.nodeDeletionTimeout)

/-- A wire spec with `machineTemplate` absent but a valid secret reference. -/
def specMissingMachineTemplate : WireSpec :=
  { machineTemplate := none,
    installStateSecretRef := some { name := some ("cluster-install-state") },
    manifestsSelector := none }

/-- A wire infrastructure reference naming namespace `ns-b`. -/
def crossWireInfraRef : WireInfrastructureReference :=
  { kind := some ("AWSMachineTemplate"), «namespace» := some ("ns-b"),
    name := some ("cp-template"),
    apiVersion := some ("infrastructure.cluster.x-k8s.io/v1beta1") }

/-- A wire machine template carrying `crossWireInfraRef`. -/
def crossWireMachineTemplate : WireMachineTemplate :=
  { infrastructureRef := some crossWireInfraRef }

/-- A well-formed wire secret reference. -/
def goodWireSecretRef : WireSecretRef :=
  { name := some ("cluster-install-state") }

/-- A resource in namespace `ns-a` whose infrastructure reference names
namespace `ns-b`. -/
def resourceCrossNamespace : WireResource :=
  { «namespace» := ("ns-a"), name := ("cp"),
    spec := { machineTemplate := some crossWireMachineTemplate,
              installStateSecretRef := some goodWireSecretRef,
              manifestsSelector := none } }

/-!
## Condition reporter

Modelled from the spec: the repository's schema only declares
`status.conditions : []metav1.Condition` (lines 162–168); the reporter that
maintains the list is controller code described in §4.4 of the design
document, and is embedded here from those words.
-/

/-- Embedding of `metav1.Condition`, the element type of the `conditions`
field.  The transition timestamp is an abstract instant (`Nat`); the status
is the string `"True"`, `"False"` or `"Unknown"`. -/
structure Condition where
  type : String
  status : String
  reason : String
  message : String
  observedGeneration : Int
  lastTransitionTime : Nat
  deriving DecidableEq, Repr

/-- Build a fresh condition stamped with the current time. -/
def mkCondition (now : Nat) (t st rsn msg : String) (gen : Int) : Condition :=
  { type := t, status := st, reason := rsn, message := msg,
    observedGeneration := gen, lastTransitionTime := now }

/-- The condition of a given type, if present. -/
def findCondition (conds : List Condition) (t : String) : Option Condition :=
  conds.find? (fun c => c.type == t)

/-- The transition timestamp recorded for a given condition type. -/
def transitionTime? (conds : List Condition) (t : String) : Option Nat :=
  (findCondition conds t).map (fun c => c.lastTransitionTime)

/-- Modelled from the spec (§4.4): `setCondition` upserts by `type`.  When an
existing condition of the type has the same status, only the observed
generation, reason and message are refreshed and the transition timestamp is
preserved; when the status differs, the timestamp becomes the current time; a
missing type is appended. -/
def setCondition (now : Nat) (t st rsn msg : String) (gen : Int) :
    List Condition → List Condition
  | [] => [mkCondition now t st rsn msg gen]
  | c :: rest =>
    if c.type = t then
      (if c.status = st then
        { c with reason := rsn, message := msg, observedGeneration := gen }
       else
        mkCondition now t st rsn msg gen) :: rest
    else
      c :: setCondition now t st rsn msg gen rest

/-!
## Lifecycle state machine

Modelled from the spec: the repository contains only the schema; the
reconciliation state machine operating on it is controller code described in
§4.1, §4.2 and §8 of the design document.  One pass reads the spec and the
external world (an `Env`) and rewrites the resource's status; the controller
re-validates the spec and the install-state secret while in the pre-machine
phases, external machine/installer signals drive the later phases, and
`initialized`/`ready` are one-way latches that passes only ever set.
-/

/-- The lifecycle phases of §4.2. -/
inductive Phase
  | Pending
  | TemplateBound
  | Provisioning
  | Initialized
  | BootstrapComplete
  | Ready
  deriving DecidableEq, Repr

/-- The controller-visible state of one resource: its phase plus the
observable `status` fields of the schema (lines 160–183). -/
structure Resource where
  phase : Phase
  initialized : Bool
  ready : Bool
  conditions : List Condition
  deriving DecidableEq, Repr

/-- A freshly created resource. -/
def initialResource : Resource :=
  { phase := .Pending, initialized := false, ready := false, conditions := [] }

/-- Key of the install config in the install-state secret (line 62). -/
def installConfigKey : String := "install-config.yaml"

/-- Key of the install state in the install-state secret (line 62). -/
def installStateKey : String := ".openshift_install_state.json"

/-- Does the resolved secret contain at least one recognized key? -/
def secretHasRecognizedKey (secret : List (String × String)) : Bool :=
  secret.any (fun kv => kv.1 == installConfigKey || kv.1 == installStateKey)

/-- Modelled from the spec (§4.1): controller-side structural validation of
the spec — the required fields are present (`machineTemplate` with its
`infrastructureRef`, and `installStateSecretRef`) and the secret name is a
well-formed DNS subdomain name. -/
def controllerValidateSpec (s : WireSpec) : Bool :=
  (match s.machineTemplate with
   | none => false
   | some m => validateMachineTemplate m) &&
  (match s.installStateSecretRef with
   | none => false
   | some r =>
     match r.name with
     | none => false
     | some n => specDnsSubdomainName n)

/-- The external world as one reconciliation pass observes it: the current
time, the resolved install-state secret (`none` when the lookup fails), and
the external signals of §6. -/
structure Env where
  now : Nat
  secret : Option (List (String × String))
  manifestsOk : Bool
  machineJoined : Bool
  installerComplete : Bool
  bootstrapDeleted : Bool
  deriving Repr

/-- Condition type of the `ValidationError` taxonomy entry (§7). -/
def validationErrorType : String := "ValidationError"

/-- Condition type of the `DependencyUnavailable` taxonomy entry (§7). -/
def dependencyUnavailableType : String := "DependencyUnavailable"

/-- The `metav1.ConditionStatus` value `"True"`. -/
def conditionTrue : String := "True"

/-- Record a `ValidationError` condition (phase and latches untouched). -/
def reportValidationError (e : Env) (rsn : String) (r : Resource) : Resource :=
  let conds := setCondition e.now validationErrorType conditionTrue rsn rsn 0 r.conditions
  { r with conditions := conds }

/-- Record a `DependencyUnavailable` condition (phase and latches
untouched). -/
def reportDependencyUnavailable (e : Env) (rsn : String) (r : Resource) :
    Resource :=
  let conds := setCondition e.now dependencyUnavailableType conditionTrue rsn rsn 0 r.conditions
  { r with conditions := conds }

/-- Move a resource to a phase, leaving the status fields alone. -/
def markPhase (p : Phase) (r : Resource) : Resource :=
  { r with phase := p }

/-- Modelled from the spec: one reconciliation pass (§4.2, §8).  The
controller validates the spec and the install-state secret in the
`Pending`/`TemplateBound` phases (the secret is needed to generate the
ignition configuration, so it is re-checked on every such pass); a secret
with neither recognized key, like any validation failure, blocks the
transition and reports a `ValidationError` condition; machine and installer
signals drive the later phases, idempotently. -/
def reconcile (spec : WireSpec) (e : Env) (r : Resource) : Resource :=
  match r.phase with
  | .Pending =>
    if controllerValidateSpec spec = false then
      reportValidationError e ("InvalidSpec") r
    else
      match e.secret with
      | none => reportDependencyUnavailable e ("SecretNotFound") r
      | some s =>
        if secretHasRecognizedKey s then
          markPhase .TemplateBound r
        else
          reportValidationError e ("MissingInstallStateKeys") r
  | .TemplateBound =>
    if controllerValidateSpec spec = false then
      reportValidationError e ("InvalidSpec") r
    else
      match e.secret with
      | none => reportDependencyUnavailable e ("SecretNotFound") r
      | some s =>
        if secretHasRecognizedKey s = false then
          reportValidationError e ("MissingInstallStateKeys") r
        else if e.manifestsOk then
          markPhase .Provisioning r
        else
          reportValidationError e ("MalformedManifests") r
  | .Provisioning =>
    if e.machineJoined then
      { r with phase := .Initialized, initialized := true }
    else r
  | .Initialized =>
    if e.installerComplete then markPhase .BootstrapComplete r else r
  | .BootstrapComplete =>
    if e.bootstrapDeleted then { r with phase := .Ready, ready := true }
    else r
  | .Ready => r

/-- A sequence of reconciliation passes. -/
def run (spec : WireSpec) (envs : List Env) (r : Resource) : Resource :=
  envs.foldl (fun acc e => reconcile spec e acc) r

/-- Is a `ValidationError` condition with status `"True"` reported? -/
def hasValidationError (r : Resource) : Bool :=
  r.conditions.any
    (fun c => c.type == validationErrorType && c.status == conditionTrue)

/-- The latch invariant maintained by reconciliation: past the join phase the
`initialized` latch is set, and `ready` implies `initialized`. -/
def statusInv (r : Resource) : Prop :=
  ((r.phase = .Initialized ∨ r.phase = .BootstrapComplete
      ∨ r.phase = .Ready) → r.initialized = true)
  ∧ (r.ready = true → r.initialized = true)

/-!
## Concrete sample values for the state machine
-/

/-- A fully populated wire infrastructure reference in the resource's own
namespace. -/
def goodWireInfraRef : WireInfrastructureReference :=
  { kind := some ("AWSMachineTemplate"), «namespace» := some ("test-ns"),
    name := some ("cp-template"),
    apiVersion := some ("infrastructure.cluster.x-k8s.io/v1beta1") }

/-- A wire machine template carrying `goodWireInfraRef`. -/
def goodWireMachineTemplate : WireMachineTemplate :=
  { infrastructureRef := some goodWireInfraRef }

/-- A wire spec that passes the controller-side structural validation. -/
def goodWireSpec : WireSpec :=
  { machineTemplate := some goodWireMachineTemplate,
    installStateSecretRef := some goodWireSecretRef,
    manifestsSelector := none }

/-- A wire spec with a machine template but no `installStateSecretRef`. -/
def specMissingSecretRef : WireSpec :=
  { machineTemplate := some goodWireMachineTemplate,
    installStateSecretRef := none,
    manifestsSelector := none }

/-- An environment in which every lookup succeeds and every external signal
has fired. -/
def goodEnv (now : Nat) : Env :=
  { now := now, secret := some [(installConfigKey, ("apiVersion: v1"))],
    manifestsOk := true, machineJoined := true, installerComplete := true,
    bootstrapDeleted := true }

/-- An environment whose install-state secret resolves but carries neither
recognized key. -/
def badSecretEnv : Env :=
  { now := 0, secret := some [(("unrelated-key"), ("zzz"))],
    manifestsOk := true, machineJoined := true, installerComplete := true,
    bootstrapDeleted := true }

/-- A resource that has reached the terminal phase with both latches set. -/
def readyResource : Resource :=
  { phase := .Ready, initialized := true, ready := true, conditions := [] }

end OCP

namespace OCP

/-- C1: with a prior accepted value existing, an update is rejected at the
validation boundary iff its `machineTemplate` differs structurally from the
last-accepted one; an update leaving `machineTemplate` unchanged is not
rejected by this rule, and on create (no prior value) the rule admits. -/
theorem C1_machineTemplate_immutable_at_validation
    (o n : OpenShiftControlPlaneSpec) :
    (validateUpdate (some o) n = false ↔ n.machineTemplate ≠ o.machineTemplate)
      ∧ validateUpdate none n = true := by
  constructor
  · simp [validateUpdate]
  · rfl

/-- C4 counterexample: the CEL rule `self == oldSelf` is plain deep
structural equality, so an update that changes `nodeDrainTimeout` from unset
to an explicit zero is rejected as a change, although the claim says an
unset↔zero change counts as no change for the drain timeout
(`machineTemplateEqClaim`, the comparison the claim describes, calls the two
templates equal). -/
theorem C4_counterexample_drain_unset_vs_zero :
    validateUpdate (some (specOf mtDrainUnset)) (specOf mtDrainZero) = false
      ∧ machineTemplateEqClaim mtDrainUnset mtDrainZero = true := by
  constructor <;> rfl

/-- C4 amended: the immutability comparison is plain deep structural equality
over all MachineTemplate fields; a change between unset and an explicit zero
value counts as a change for all three timeout fields — for
`nodeDeletionTimeout` as the claim says, but also for `nodeDrainTimeout` and
`nodeVolumeDetachTimeout`. -/
theorem C4_amended_deep_structural_equality :
    (∀ o n : OpenShiftControlPlaneSpec,
      validateUpdate (some o) n = true ↔ n.machineTemplate = o.machineTemplate)
    ∧ (∀ (s : OpenShiftControlPlaneSpec) (d : Duration) (dv dd : Option Duration),
      validateUpdate (some (withTimeouts s none dv dd))
        (withTimeouts s (some d) dv dd) = false)
    ∧ (∀ (s : OpenShiftControlPlaneSpec) (d : Duration) (dr dd : Option Duration),
      validateUpdate (some (withTimeouts s dr none dd))
        (withTimeouts s dr (some d) dd) = false)
    ∧ (∀ (s : OpenShiftControlPlaneSpec) (d : Duration) (dr dv : Option Duration),
      validateUpdate (some (withTimeouts s dr dv none))
        (withTimeouts s dr dv (some d)) = false) := by
  refine ⟨fun o n => by simp [validateUpdate], ?_, ?_, ?_⟩ <;>
    · rintro ⟨⟨om, ir, t1, t2, t3⟩, isr, sel⟩ d x y
      simp [validateUpdate, withTimeouts]

/-- C5: the generated validation of `installStateSecretRef.name` does not
implement the documented DNS-subdomain rule.  The `Pattern` constraint is
unanchored (and its `{,251}` is not valid RE2 repetition syntax), so the name
`_a_` — which contains characters outside `[-.a-z0-9]` and neither starts nor
ends with an alphanumeric — is accepted by the generated validation, while the
field's own doc comment, the spec and the claim all require it to be
rejected. -/
theorem C5_secretName_pattern_accepts_invalid :
    validateSecretName ("_a_") = true
      ∧ specDnsSubdomainName ("_a_") = false := by
  constructor <;> decide

/-- C6: both `machineTemplate` and `installStateSecretRef` are required
fields of the Spec — structural validation rejects any Spec in which either
is absent (`machineTemplate` through controller-gen's required-by-default
rule, its json tag lacking `omitempty`, so the misspelled explicit marker on
line 54 changes nothing), and the `Pending → TemplateBound` transition is
taken only when the spec passes the controller's validation, which entails
both fields being present. -/
theorem C6_required_fields_gate_validation_and_transition :
    (∀ s : WireSpec, s.machineTemplate = none → validateSpecCreate s = false)
    ∧ (∀ s : WireSpec, s.installStateSecretRef = none →
        validateSpecCreate s = false)
    ∧ (∀ (spec : WireSpec) (e : Env) (r : Resource), r.phase = .Pending →
        (reconcile spec e r).phase = .TemplateBound →
        controllerValidateSpec spec = true
          ∧ spec.machineTemplate.isSome = true
          ∧ spec.installStateSecretRef.isSome = true) := by
  refine ⟨?_, ?_, ?_⟩
  · intro s h
    simp [validateSpecCreate, h]
  · intro s h
    simp [validateSpecCreate, h]
  · intro spec e r hph htb
    rcases r with ⟨ph, ini, rdy, cs⟩
    simp only at hph
    subst hph
    by_cases hval : controllerValidateSpec spec = false
    · exfalso
      simp [reconcile, hval, reportValidationError] at htb
    · have hval' : controllerValidateSpec spec = true := by
        cases hcv : controllerValidateSpec spec
        · exact absurd hcv hval
        · rfl
      refine ⟨hval', ?_, ?_⟩
      · rcases hmt : spec.machineTemplate with _ | m
        · simp only [controllerValidateSpec, hmt] at hval'
          simp at hval'
        · simp [hmt]
      · rcases hisr : spec.installStateSecretRef with _ | sr
        · simp only [controllerValidateSpec, hisr] at hval'
          simp at hval'
        · simp [hisr]

/-- Witness for C6 at concrete inputs: a spec missing `machineTemplate` and
a spec missing `installStateSecretRef` are both rejected, and the spec of
the one concrete `Pending → TemplateBound` transition (taken in the fully
cooperative environment) passes the controller's validation. -/
theorem C6_required_fields_gate_witness :
    validateSpecCreate specMissingMachineTemplate = false
      ∧ validateSpecCreate specMissingSecretRef = false
      ∧ controllerValidateSpec goodWireSpec = true :=
  ⟨C6_required_fields_gate_validation_and_transition.1
      specMissingMachineTemplate rfl,
   C6_required_fields_gate_validation_and_transition.2.1
      specMissingSecretRef rfl,
   (C6_required_fields_gate_validation_and_transition.2.2 goodWireSpec
      (goodEnv 0) initialResource rfl (by decide)).1⟩

/-- C9 counterexample: a resource living in namespace `ns-a` whose
`infrastructureRef.namespace` is `ns-b` passes the generated validation,
although the claim says such a resource does not pass validation. -/
theorem C9_counterexample_cross_namespace_accepted :
    validateResourceCreate resourceCrossNamespace = true
      ∧ refNamespace? resourceCrossNamespace = some ("ns-b")
      ∧ resourceCrossNamespace.«namespace» = ("ns-a")
      ∧ ("ns-b" : String) ≠ ("ns-a") := by
  refine ⟨by decide, rfl, rfl, by decide⟩

/-- C9 amended: the API documents that `infrastructureRef.namespace` must
equal the resource's own namespace, but no generated validation enforces
this: validation is insensitive to the value of the referenced namespace. -/
theorem C9_amended_validation_ignores_ref_namespace
    (r : WireResource) (ns1 ns2 : String) :
    validateResourceCreate (withRefNamespace r ns1)
      = validateResourceCreate (withRefNamespace r ns2) := by
  rcases r with ⟨rns, rname, ⟨mt, isr, sel⟩⟩
  cases mt with
  | none => rfl
  | some m =>
    rcases m with ⟨md, ir, t1, t2, t3⟩
    cases ir with
    | none => rfl
    | some x => rfl

/-- Helper: when no condition of the type exists, `setCondition` appends a
fresh condition stamped with the current time. -/
theorem setCondition_of_not_found (now : Nat) (t st rsn msg : String)
    (gen : Int) (conds : List Condition)
    (h : findCondition conds t = none) :
    setCondition now t st rsn msg gen conds
      = conds ++ [mkCondition now t st rsn msg gen] := by
  induction conds with
  | nil => rfl
  | cons c rest ih =>
    by_cases hc : c.type = t
    · simp [findCondition, hc] at h
    · simp only [findCondition, List.find?_cons] at h
      rw [setCondition]
      simp only [hc, if_false, List.cons_append]
      have hb : (c.type == t) = false := by simp [hc]
      rw [hb] at h
      exact congrArg (c :: ·) (ih h)

/-- Helper: the condition looked up after a `setCondition` call. -/
theorem findCondition_setCondition (now : Nat) (t st rsn msg : String)
    (gen : Int) (conds : List Condition) :
    findCondition (setCondition now t st rsn msg gen conds) t
      = some (match findCondition conds t with
              | none => mkCondition now t st rsn msg gen
              | some c =>
                if c.status = st then
                  { c with reason := rsn, message := msg,
                           observedGeneration := gen }
                else mkCondition now t st rsn msg gen) := by
  induction conds with
  | nil => simp [setCondition, findCondition, mkCondition]
  | cons c rest ih =>
    by_cases hc : c.type = t
    · by_cases hs : c.status = st <;>
        simp [setCondition, findCondition, hc, hs, mkCondition]
    · simp only [setCondition, hc, if_false]
      simp only [findCondition, List.find?_cons] at ih ⊢
      have hb : (c.type == t) = false := by simp [hc]
      rw [hb]
      exact ih

/-- Helper: `setCondition` keeps the list of condition types unchanged when
the type was already present. -/
theorem setCondition_types_of_found (now : Nat) (t st rsn msg : String)
    (gen : Int) (conds : List Condition) (c : Condition)
    (h : findCondition conds t = some c) :
    (setCondition now t st rsn msg gen conds).map (fun x => x.type)
      = conds.map (fun x => x.type) := by
  induction conds with
  | nil => simp [findCondition] at h
  | cons a rest ih =>
    by_cases ha : a.type = t
    · by_cases hs : a.status = st <;>
        simp [setCondition, ha, hs, mkCondition]
    · simp only [setCondition, ha, if_false, List.map_cons]
      simp only [findCondition, List.find?_cons] at h
      have hb : (a.type == t) = false := by simp [ha]
      rw [hb] at h
      rw [ih h]

/-- Helper: `setCondition` replaces rather than appends when the type was
already present. -/
theorem setCondition_length_of_found (now : Nat) (t st rsn msg : String)
    (gen : Int) (conds : List Condition) (c : Condition)
    (h : findCondition conds t = some c) :
    (setCondition now t st rsn msg gen conds).length = conds.length := by
  have := setCondition_types_of_found now t st rsn msg gen conds c h
  calc (setCondition now t st rsn msg gen conds).length
      = ((setCondition now t st rsn msg gen conds).map (fun x => x.type)).length := by
        simp
    _ = (conds.map (fun x => x.type)).length := by rw [this]
    _ = conds.length := by simp

/-- Helper: absence of a type means no member carries it. -/
theorem findCondition_eq_none_iff (conds : List Condition) (t : String) :
    findCondition conds t = none ↔ ∀ c ∈ conds, c.type ≠ t := by
  simp [findCondition, List.find?_eq_none]

/-- C8: `setCondition` upserts by condition type — types stay unique and a
later write with an existing type replaces rather than appends; with
identical status only the observed generation, reason and message are
refreshed and the transition timestamp is preserved (so two consecutive
calls with identical type, status, reason and message leave the timestamp
unchanged after the first); with a different status the timestamp becomes
the current time. -/
theorem C8_setCondition_contract (now : Nat) (t st rsn msg : String)
    (gen : Int) (conds : List Condition) :
    ((conds.map (fun x => x.type)).Nodup →
      ((setCondition now t st rsn msg gen conds).map (fun x => x.type)).Nodup)
    ∧ (∀ c, findCondition conds t = some c →
      (setCondition now t st rsn msg gen conds).length = conds.length)
    ∧ (∀ c, findCondition conds t = some c → c.status = st →
      findCondition (setCondition now t st rsn msg gen conds) t
        = some { c with reason := rsn, message := msg,
                        observedGeneration := gen })
    ∧ (∀ c, findCondition conds t = some c → c.status ≠ st →
      findCondition (setCondition now t st rsn msg gen conds) t
        = some (mkCondition now t st rsn msg gen))
    ∧ (∀ (now2 : Nat) (gen2 : Int),
      transitionTime?
          (setCondition now2 t st rsn msg gen2
            (setCondition now t st rsn msg gen conds)) t
        = transitionTime? (setCondition now t st rsn msg gen conds) t) := by
  refine ⟨?_, ?_, ?_, ?_, ?_⟩
  · intro hnd
    rcases hfind : findCondition conds t with _ | c
    · rw [setCondition_of_not_found now t st rsn msg gen conds hfind]
      rw [findCondition_eq_none_iff] at hfind
      simp only [List.map_append, List.map_cons, List.map_nil]
      rw [List.nodup_append]
      refine ⟨hnd, List.nodup_singleton _, ?_⟩
      intro a ha hb
      simp only [List.mem_singleton] at hb
      simp only [List.mem_map] at ha
      obtain ⟨c, hc, rfl⟩ := ha
      exact hfind c hc (by simpa [mkCondition] using hb)
    · rw [setCondition_types_of_found now t st rsn msg gen conds c hfind]
      exact hnd
  · exact fun c h => setCondition_length_of_found now t st rsn msg gen conds c h
  · intro c h hs
    rw [findCondition_setCondition, h]
    simp [hs]
  · intro c h hs
    rw [findCondition_setCondition, h]
    simp [hs]
  · intro now2 gen2
    rw [transitionTime?, transitionTime?, findCondition_setCondition,
        findCondition_setCondition]
    rcases hfind : findCondition conds t with _ | c
    · simp [mkCondition]
    · by_cases hs : c.status = st <;> simp [hs, mkCondition]

/-- Witness for C8 at a concrete input: a second write with identical type
and status refreshes reason, message and generation but keeps the original
transition timestamp `5`. -/
theorem C8_setCondition_contract_witness :
    findCondition
        (setCondition 9 validationErrorType conditionTrue ("fixed") ("m2") 2
          [mkCondition 5 validationErrorType conditionTrue ("bad") ("m1") 1])
        validationErrorType
      = some { type := validationErrorType, status := conditionTrue,
               reason := ("fixed"), message := ("m2"),
               observedGeneration := 2, lastTransitionTime := 5 } := by
  have h := (C8_setCondition_contract 9 validationErrorType conditionTrue
    ("fixed") ("m2") 2
    [mkCondition 5 validationErrorType conditionTrue ("bad") ("m1") 1]).2.2.1
    (mkCondition 5 validationErrorType conditionTrue ("bad") ("m1") 1)
    (by rfl) (by rfl)
  exact h

/-- C10: in the typed Spec, an omitted `manifestsSelector` and an explicitly
empty label selector decode to the same value (the field is a non-pointer
struct), so every operation on the Spec treats the two identically — the
interface cannot distinguish them at any point. -/
theorem C10_manifestsSelector_absent_eq_empty :
    decodeManifestsSelector none = decodeManifestsSelector (some {})
      ∧ ∀ {α : Type} (f : OpenShiftControlPlaneSpec → α)
          (mt : OpenShiftControlPlaneMachineTemplate)
          (isr : OpenShiftControlPlaneSecretRef),
        f { machineTemplate := mt, installStateSecretRef := isr,
            manifestsSelector := decodeManifestsSelector none }
          = f { machineTemplate := mt, installStateSecretRef := isr,
                manifestsSelector := decodeManifestsSelector (some {}) } :=
  ⟨rfl, fun _ _ _ => rfl⟩

/-- Helper: a run does nothing on an empty pass list. -/
theorem run_nil (spec : WireSpec) (r : Resource) : run spec [] r = r := rfl

/-- Helper: a run peels off its first pass. -/
theorem run_cons (spec : WireSpec) (e : Env) (envs : List Env)
    (r : Resource) :
    run spec (e :: envs) r = run spec envs (reconcile spec e r) := rfl

/-- Helper: one reconciliation pass never clears `initialized`. -/
theorem reconcile_initialized_mono (spec : WireSpec) (e : Env) (r : Resource)
    (h : r.initialized = true) :
    (reconcile spec e r).initialized = true := by
  rcases r with ⟨ph, ini, rdy, cs⟩
  rcases e with ⟨now, sec, mok, mj, ic, bd⟩
  cases ph <;> cases sec <;> simp only [reconcile] <;> (repeat' split) <;>
    simp_all [reportValidationError, reportDependencyUnavailable, markPhase]

/-- Helper: one reconciliation pass never clears `ready`. -/
theorem reconcile_ready_mono (spec : WireSpec) (e : Env) (r : Resource)
    (h : r.ready = true) :
    (reconcile spec e r).ready = true := by
  rcases r with ⟨ph, ini, rdy, cs⟩
  rcases e with ⟨now, sec, mok, mj, ic, bd⟩
  cases ph <;> cases sec <;> simp only [reconcile] <;> (repeat' split) <;>
    simp_all [reportValidationError, reportDependencyUnavailable, markPhase]

/-- Helper: a whole run never clears `initialized`. -/
theorem run_initialized_mono (spec : WireSpec) (envs : List Env) :
    ∀ r : Resource, r.initialized = true →
      (run spec envs r).initialized = true := by
  induction envs with
  | nil => exact fun r h => h
  | cons e rest ih =>
    intro r h
    rw [run_cons]
    exact ih _ (reconcile_initialized_mono spec e r h)

/-- Helper: a whole run never clears `ready`. -/
theorem run_ready_mono (spec : WireSpec) (envs : List Env) :
    ∀ r : Resource, r.ready = true → (run spec envs r).ready = true := by
  induction envs with
  | nil => exact fun r h => h
  | cons e rest ih =>
    intro r h
    rw [run_cons]
    exact ih _ (reconcile_ready_mono spec e r h)

/-- C2: over every sequence of reconciliation passes, `status.initialized`
and `status.ready` are monotonic non-decreasing — once true at any observed
point, they are true in every later observed state, replays and error passes
included. -/
theorem C2_status_latches_monotonic (spec : WireSpec) (envs : List Env)
    (r : Resource) :
    (r.initialized = true → (run spec envs r).initialized = true)
      ∧ (r.ready = true → (run spec envs r).ready = true) :=
  ⟨run_initialized_mono spec envs r, run_ready_mono spec envs r⟩

/-- Witness for C2 at a concrete input: a resource with both latches set
keeps them set across a further pass. -/
theorem C2_status_latches_monotonic_witness :
    (run goodWireSpec [goodEnv 0] readyResource).initialized = true
      ∧ (run goodWireSpec [goodEnv 0] readyResource).ready = true :=
  ⟨(C2_status_latches_monotonic goodWireSpec [goodEnv 0] readyResource).1 rfl,
   (C2_status_latches_monotonic goodWireSpec [goodEnv 0] readyResource).2 rfl⟩

/-- Helper: one reconciliation pass preserves the latch invariant. -/
theorem reconcile_statusInv (spec : WireSpec) (e : Env) (r : Resource)
    (h : statusInv r) : statusInv (reconcile spec e r) := by
  rcases r with ⟨ph, ini, rdy, cs⟩
  rcases e with ⟨now, sec, mok, mj, ic, bd⟩
  rcases h with ⟨h1, h2⟩
  cases ph <;> cases sec <;> simp only [reconcile] <;> (repeat' split) <;>
    constructor <;> intro hx <;>
      simp_all [reportValidationError, reportDependencyUnavailable, markPhase]

/-- Helper: a whole run preserves the latch invariant. -/
theorem run_statusInv (spec : WireSpec) (envs : List Env) :
    ∀ r : Resource, statusInv r → statusInv (run spec envs r) := by
  induction envs with
  | nil => exact fun r h => h
  | cons e rest ih =>
    intro r h
    rw [run_cons]
    exact ih _ (reconcile_statusInv spec e r h)

/-- C3: at every observed point in the lifetime of a resource (i.e. after
any sequence of reconciliation passes from creation), `status.ready = true`
implies `status.initialized = true`; in particular `ready` is only ever set
after `initialized` already holds. -/
theorem C3_ready_implies_initialized (spec : WireSpec) (envs : List Env) :
    (run spec envs initialResource).ready = true →
      (run spec envs initialResource).initialized = true := by
  have h : statusInv (run spec envs initialResource) := by
    refine run_statusInv spec envs initialResource ?_
    constructor
    · intro hx
      rcases hx with hx | hx | hx <;> simp [initialResource] at hx
    · intro hx
      simp [initialResource] at hx
  exact h.2

/-- Witness for C3 at a concrete input: a full bootstrap run (five passes in
a fully cooperative environment) reaches `ready = true`, and the theorem
yields `initialized = true` there. -/
theorem C3_ready_implies_initialized_witness :
    (run goodWireSpec (List.replicate 5 (goodEnv 0))
        initialResource).initialized = true :=
  C3_ready_implies_initialized goodWireSpec (List.replicate 5 (goodEnv 0))
    (by decide)

/-- Helper: an upsert establishes a condition of its type and status. -/
theorem setCondition_any_establishes (now : Nat) (t st rsn msg : String)
    (gen : Int) (conds : List Condition) :
    (setCondition now t st rsn msg gen conds).any
      (fun c => c.type == t && c.status == st) = true := by
  induction conds with
  | nil => simp [setCondition, mkCondition]
  | cons c rest ih =>
    by_cases hc : c.type = t
    · by_cases hs : c.status = st <;>
        simp [setCondition, hc, hs, mkCondition]
    · simp [setCondition, hc, ih]

/-- Helper: a pass whose resolved install-state secret carries neither
recognized key keeps the resource in `Pending`/`TemplateBound` and reports a
`ValidationError` condition. -/
theorem reconcile_bad_secret (spec : WireSpec) (e : Env) (r : Resource)
    (s : List (String × String)) (hsec : e.secret = some s)
    (hkeys : secretHasRecognizedKey s = false)
    (hph : r.phase = .Pending ∨ r.phase = .TemplateBound) :
    ((reconcile spec e r).phase = .Pending
        ∨ (reconcile spec e r).phase = .TemplateBound)
      ∧ hasValidationError (reconcile spec e r) = true := by
  rcases r with ⟨ph, ini, rdy, cs⟩
  rcases e with ⟨now, sec, mok, mj, ic, bd⟩
  simp only at hsec
  subst hsec
  have hest := fun (rsn : String) =>
    setCondition_any_establishes now validationErrorType conditionTrue rsn
      rsn 0 cs
  rcases hph with hph | hph <;> subst hph <;>
    simp only [reconcile] <;> (repeat' split) <;>
      simp_all [reportValidationError, hasValidationError, markPhase]

/-- C7: whenever the install-state secret resolves to a secret carrying
neither `install-config.yaml` nor `.openshift_install_state.json`, the state
machine never leaves the `Pending`/`TemplateBound` states and (after at
least one pass) a `ValidationError` condition is reported; conversely, a
resolved secret carrying at least one recognized key satisfies the
requirement and lets a valid spec leave `Pending`. -/
theorem C7_unrecognized_secret_blocks (spec : WireSpec) :
    (∀ (envs : List Env) (r : Resource),
      (r.phase = .Pending ∨ r.phase = .TemplateBound) →
      (∀ e ∈ envs, ∃ s, e.secret = some s
          ∧ secretHasRecognizedKey s = false) →
      ((run spec envs r).phase = .Pending
          ∨ (run spec envs r).phase = .TemplateBound)
        ∧ (envs ≠ [] → hasValidationError (run spec envs r) = true))
    ∧ (∀ (e : Env) (r : Resource) (s : List (String × String)),
      r.phase = .Pending → controllerValidateSpec spec = true →
      e.secret = some s → secretHasRecognizedKey s = true →
      (reconcile spec e r).phase = .TemplateBound) := by
  constructor
  · intro envs
    induction envs with
    | nil =>
      intro r hph _
      exact ⟨hph, fun hne => absurd rfl hne⟩
    | cons e rest ih =>
      intro r hph hbad
      obtain ⟨s, hsec, hkeys⟩ := hbad e (List.mem_cons_self e rest)
      have hstep := reconcile_bad_secret spec e r s hsec hkeys hph
      have hrest : ∀ e' ∈ rest, ∃ s', e'.secret = some s'
          ∧ secretHasRecognizedKey s' = false :=
        fun e' he' => hbad e' (List.mem_cons_of_mem e he')
      rw [run_cons]
      cases rest with
      | nil => exact ⟨hstep.1, fun _ => hstep.2⟩
      | cons e2 rest2 =>
        have hall := ih (reconcile spec e r) hstep.1 hrest
        exact ⟨hall.1, fun _ => hall.2 (List.cons_ne_nil e2 rest2)⟩
  · intro e r s hph hval hsec hkeys
    rcases r with ⟨ph, ini, rdy, cs⟩
    simp only at hph
    subst hph
    simp [reconcile, hval, hsec, hkeys, markPhase]

/-- Witness for C7 at a concrete input: one pass over a resolved secret with
only unrecognized keys leaves the fresh resource in `Pending`/`TemplateBound`
and reports a `ValidationError` condition. -/
theorem C7_unrecognized_secret_blocks_witness :
    ((run goodWireSpec [badSecretEnv] initialResource).phase = Phase.Pending
        ∨ (run goodWireSpec [badSecretEnv] initialResource).phase
            = Phase.TemplateBound)
      ∧ hasValidationError (run goodWireSpec [badSecretEnv] initialResource)
          = true := by
  have h := (C7_unrecognized_secret_blocks goodWireSpec).1 [badSecretEnv]
    initialResource (Or.inl rfl) ?_
  · exact ⟨h.1, h.2 (List.cons_ne_nil badSecretEnv [])⟩
  · intro e he
    rw [List.mem_singleton] at he
    subst he
    exact ⟨[(("unrelated-key"), ("zzz"))], rfl, by decide⟩

end OCP
